import Mathlib

/-!
Verification development for the BGUmob-survey route-generation core.

The definitions below are a shallow embedding of the Python sources
(src/route_simulator.py, src/data_manager.py, src/viz_poi_map.py):
survey decimals become rationals, floats used in geometric formulas become
reals, dictionaries with possibly-missing keys become structures with
Option fields, exceptions become Except/Option, the external HTTP routing
service and the random-number generator become explicit oracle parameters
(a response function per attempt index, an offset stream per draw index).
-/

/-- Coordinate record shared by route_simulator.py and data_manager.py:
latitude, longitude and a free-text comment. -/
structure Coordinate where
  lat : ℚ
  lon : ℚ
  comment : String := ""
deriving DecidableEq

/-- The Israel-bounds check asserted in Coordinate post-init:
29.5 <= lat <= 33.3 and 34.2 <= lon <= 35.9. -/
def Coordinate.inBounds (lat lon : ℚ) : Prop :=
  (29.5 ≤ lat ∧ lat ≤ 33.3) ∧ (34.2 ≤ lon ∧ lon ≤ 35.9)

instance (lat lon : ℚ) : Decidable (Coordinate.inBounds lat lon) :=
  decidable_of_iff ((29.5 ≤ lat ∧ lat ≤ 33.3) ∧ (34.2 ≤ lon ∧ lon ≤ 35.9)) Iff.rfl

/-- Failure of the post-init validation assertions (the spec's
ValidationError); the two constructors mirror the two assert statements. -/
inductive ValidationError where
  | latOutOfBounds
  | lonOutOfBounds
deriving DecidableEq

/-- Construction of a Coordinate: post-init asserts the latitude bound
first, then the longitude bound; a failed assertion aborts construction. -/
def mkCoordinate (lat lon : ℚ) (comment : String) : Except ValidationError Coordinate :=
  if 29.5 ≤ lat ∧ lat ≤ 33.3 then
    if 34.2 ≤ lon ∧ lon ≤ 35.9 then
      Except.ok { lat := lat, lon := lon, comment := comment }
    else Except.error ValidationError.lonOutOfBounds
  else Except.error ValidationError.latOutOfBounds

/-- Degrees-to-radians conversion used by distance_to (math.radians). -/
noncomputable def radians (x : ℚ) : ℝ := (x : ℝ) * Real.pi / 180

/-- The haversine intermediate value computed inside
Coordinate.distance_to in data_manager.py:
sin(dlat/2)^2 + cos(lat1)*cos(lat2)*sin(dlon/2)^2. -/
noncomputable def hav (a b : Coordinate) : ℝ :=
  Real.sin ((radians b.lat - radians a.lat) / 2) ^ 2 +
    Real.cos (radians a.lat) * Real.cos (radians b.lat) *
      Real.sin ((radians b.lon - radians a.lon) / 2) ^ 2

/-- Haversine great-circle distance in kilometers
(data_manager.py, Coordinate.distance_to): 2 * asin(sqrt(a)) * 6371. -/
noncomputable def Coordinate.distance_to (a b : Coordinate) : ℝ :=
  2 * Real.arcsin (Real.sqrt (hav a b)) * 6371

/-- The fixed BGU gate table (data_manager.py, BGUGateData.GATES), in the
dictionary's insertion order, which is the iteration order in Python. -/
def GATES : List (String × Coordinate) :=
  [("uni_south_3", { lat := 31.261222, lon := 34.801138, comment := "South Gate 3" }),
   ("uni_north_3", { lat := 31.263911, lon := 34.799290, comment := "North Gate 3" }),
   ("uni_west", { lat := 31.262500, lon := 34.805528, comment := "West Gate" })]

open Classical in
/-- BGUGateData.find_closest_gate: a linear scan holding the closest gate
so far and its distance; the initial distance is infinity, modelled by the
none state, which the first gate always replaces. -/
noncomputable def find_closest_gate (residence : Coordinate) : Option (String × Coordinate) :=
  (GATES.foldl
    (fun (st : Option (String × Coordinate × ℝ)) g =>
      match st with
      | none => some (g.1, g.2, residence.distance_to g.2)
      | some (gateName, c, cd) =>
        if residence.distance_to g.2 < cd then some (g.1, g.2, residence.distance_to g.2)
        else some (gateName, c, cd))
    none).map (fun t => (t.1, t.2.1))

/-- Decoded polyline point: a (lat, lon) pair.  The third-party polyline
codec is modelled by carrying leg geometries in decoded form. -/
abbrev RoutePoint := ℚ × ℚ

/-- The legGeometry sub-dictionary of an OTP leg; the points key may be
absent. -/
structure LegGeometry where
  points : Option (List RoutePoint)
deriving DecidableEq

/-- One OTP leg dictionary: geometry, duration in seconds, distance in
meters; every key may be absent. -/
structure RouteLeg where
  legGeometry : Option LegGeometry
  duration : Option ℚ
  distance : Option ℚ
deriving DecidableEq

/-- One OTP itinerary dictionary; the legs key may be absent. -/
structure RouteItinerary where
  legs : Option (List RouteLeg)
deriving DecidableEq

/-- The OTP plan dictionary; the itineraries key may be absent. -/
structure RoutePlan where
  itineraries : Option (List RouteItinerary)
deriving DecidableEq

/-- The intermediate stop record that combine_routes attaches to a
composite route. -/
structure StopInfo where
  lat : ℚ
  lon : ℚ
  comment : String
deriving DecidableEq

/-- A decoded OTP response body: the plan key and, on composite routes
only, the intermediate stop marker. -/
structure RouteData where
  plan : Option RoutePlan
  intermediate_stop : Option StopInfo
deriving DecidableEq

/-- The success test applied to a 200 response in the query loop: the
plan key is present, its itineraries key is present, and the itinerary
list is non-empty (Python truthiness of a list). -/
def hasItineraries (d : RouteData) : Bool :=
  match d.plan with
  | some p =>
    match p.itineraries with
    | some l => !l.isEmpty
    | none => false
  | none => false

/-- The nested field chain read by combine_routes for each leg:
plan.itineraries[0].legs[0], then legGeometry.points, duration and
distance; any missing key or empty list yields none (KeyError or
IndexError caught by the caller). -/
def extractLegData (r : RouteData) : Option (List RoutePoint × ℚ × ℚ) := do
  let p ← r.plan
  let its ← p.itineraries
  let it ← its[0]?
  let legs ← it.legs
  let leg ← legs[0]?
  let g ← leg.legGeometry
  let pts ← g.points
  let dur ← leg.duration
  let dist ← leg.distance
  return (pts, dur, dist)

/-- The nested field chain read by find_optimal_poi_stop:
plan.itineraries[0].legs[0].duration and .distance. -/
def extractDurationDistance (r : RouteData) : Option (ℚ × ℚ) := do
  let p ← r.plan
  let its ← p.itineraries
  let it ← its[0]?
  let legs ← it.legs
  let leg ← legs[0]?
  let dur ← leg.duration
  let dist ← leg.distance
  return (dur, dist)

/-- A single-leg route body with every expected key present, as built by
combine_routes and as returned by the routing service on success. -/
def mkLegRoute (pts : List RoutePoint) (dur dist : ℚ) (stop : Option StopInfo) : RouteData :=
  { plan := some { itineraries := some [{ legs := some [{
      legGeometry := some { points := some pts },
      duration := some dur,
      distance := some dist }] }] },
    intermediate_stop := stop }

/-- An OTP response body with no plan key. -/
def emptyRouteData : RouteData := { plan := none, intermediate_stop := none }

/-- combine_routes (route_simulator.py lines 188-224): reads both legs,
concatenates the decoded points dropping the first point of the second
leg, sums durations and distances, and tags the intermediate stop; any
missing nested field makes it return none. -/
def combine_routes (route1 route2 : RouteData) (intermediate : Coordinate) : Option RouteData :=
  match extractLegData route1, extractLegData route2 with
  | some (points1, dur1, dist1), some (points2, dur2, dist2) =>
    some { plan := some { itineraries := some [{ legs := some [{
             legGeometry := some { points := some (points1 ++ points2.drop 1) },
             duration := some (dur1 + dur2),
             distance := some (dist1 + dist2) }] }] },
           intermediate_stop := some { lat := intermediate.lat,
                                       lon := intermediate.lon,
                                       comment := intermediate.comment } }
  | _, _ => none

/-- One external response to a routing request, as seen by the query
loop: an HTTP status code with its decoded JSON body, or a network-level
exception raised by the request call. -/
inductive OTPResponse where
  | http (status : ℕ) (data : RouteData)
  | netError
deriving DecidableEq

/-- A response that does not enter the status 200 branch: every such
response lets the loop continue to the next attempt. -/
def OTPResponse.isFailure : OTPResponse → Bool
  | OTPResponse.http status _ => !(status == 200)
  | OTPResponse.netError => true

/-- A rate-limited response (status 429). -/
def OTPResponse.is429 : OTPResponse → Bool
  | OTPResponse.http status _ => status == 429
  | OTPResponse.netError => false

/-- An HTTP 200 whose body has no plan key, no itineraries key, or an
empty itinerary list: the semantic no-route answer. -/
def OTPResponse.is200Empty : OTPResponse → Bool
  | OTPResponse.http status d => status == 200 && !hasItineraries d
  | OTPResponse.netError => false

/-- The body of the retry loop in query base (route_simulator.py lines
149-186), with fuel counting the remaining iterations; the top level
starts with attempt 0 and fuel equal to max retries.  A 200 response
returns the data on success and none on the semantic no-route answer; a
429 sleeps (attempt+1)*delay and continues; any other status or a network
exception falls through to the trailing sleep, which is skipped on the
final attempt.  Returns the result, the backoff sleeps in order, and the
number of attempts made. -/
def query_otp_route_base_aux (resp : ℕ → OTPResponse) (retry_delay : ℚ) (max_retries : ℕ) :
    ℕ → ℕ → Option RouteData × List ℚ × ℕ
  | _, 0 => (none, [], 0)
  | attempt, fuel + 1 =>
    match resp attempt with
    | OTPResponse.http status data =>
      if status = 200 then
        if hasItineraries data then (some data, [], 1) else (none, [], 1)
      else if status = 429 then
        let rest := query_otp_route_base_aux resp retry_delay max_retries (attempt + 1) fuel
        (rest.1, ((attempt : ℚ) + 1) * retry_delay :: rest.2.1, rest.2.2 + 1)
      else
        let rest := query_otp_route_base_aux resp retry_delay max_retries (attempt + 1) fuel
        if attempt < max_retries - 1 then
          (rest.1, ((attempt : ℚ) + 1) * retry_delay :: rest.2.1, rest.2.2 + 1)
        else
          (rest.1, rest.2.1, rest.2.2 + 1)
    | OTPResponse.netError =>
      let rest := query_otp_route_base_aux resp retry_delay max_retries (attempt + 1) fuel
      if attempt < max_retries - 1 then
        (rest.1, ((attempt : ℚ) + 1) * retry_delay :: rest.2.1, rest.2.2 + 1)
      else
        (rest.1, rest.2.1, rest.2.2 + 1)

/-- query base entry point: the loop runs over attempts 0 to
max retries - 1. -/
def query_otp_route_base (resp : ℕ → OTPResponse) (retry_delay : ℚ) (max_retries : ℕ) :
    Option RouteData × List ℚ × ℕ :=
  query_otp_route_base_aux resp retry_delay max_retries 0 max_retries

/-- The backoff trace predicted for a run in which every attempt fails:
failed attempt i sleeps (i+1)*delay when it was rate limited or when it
is not the final attempt. -/
def failureSleepTrace (resp : ℕ → OTPResponse) (retry_delay : ℚ) (max_retries : ℕ) : List ℚ :=
  (List.range max_retries).filterMap fun i =>
    if (resp i).is429 || decide (i < max_retries - 1) then
      some (((i : ℚ) + 1) * retry_delay)
    else none

/-- A server that is rate limited exactly twice and then answers 200 with
a one-itinerary plan. -/
def resp429Twice : ℕ → OTPResponse := fun i =>
  if i < 2 then OTPResponse.http 429 emptyRouteData
  else OTPResponse.http 200 (mkLegRoute [] 60 400 none)

/-- A server that fails with a 500 once and then answers 200 with an
empty plan. -/
def resp500Then200Empty : ℕ → OTPResponse := fun i =>
  if i = 0 then OTPResponse.http 500 emptyRouteData
  else OTPResponse.http 200 emptyRouteData

/-- One iteration of the variation loop shared by both generators: draw a
latitude and a longitude offset, add them to the base coordinate, and
append the perturbed coordinate only when it stays inside the Israel
bounds; otherwise the draw is discarded. -/
def variationStep (coord : Coordinate) (rand : ℕ → ℚ × ℚ)
    (variations : List Coordinate) (k : ℕ) : List Coordinate :=
  let offset_lat := (rand k).1
  let offset_lon := (rand k).2
  let new_lat := coord.lat + offset_lat
  let new_lon := coord.lon + offset_lon
  if 29.5 ≤ new_lat ∧ new_lat ≤ 33.3 ∧ 34.2 ≤ new_lon ∧ new_lon ≤ 35.9 then
    variations ++ [{ lat := new_lat, lon := new_lon, comment := coord.comment }]
  else variations

/-- OTPRouteSimulator generate location variations (route_simulator.py
lines 88-106): the original coordinate first, then up to
num_variations - 1 perturbed coordinates.  The numpy uniform draws in
roughly ±0.0002 degrees (about ±20 m) are modelled by the rand stream,
whose k-th value is the offset pair drawn in iteration k. -/
def OTPRouteSimulator.generate_location_variations (coord : Coordinate)
    (num_variations : ℕ) (rand : ℕ → ℚ × ℚ) : List Coordinate :=
  (List.range (num_variations - 1)).foldl (variationStep coord rand) [coord]

/-- RouteGenerator generate location variations (route_simulator.py lines
293-311): the identical loop with a wider draw range of roughly ±0.0005
degrees (about ±50 m), modelled by its own rand stream. -/
def RouteGenerator.generate_location_variations (coord : Coordinate)
    (num_variations : ℕ) (rand : ℕ → ℚ × ℚ) : List Coordinate :=
  (List.range (num_variations - 1)).foldl (variationStep coord rand) [coord]

/-- The body tried for one origin variant inside get_walking_route: with
an intermediate stop, query origin-to-stop, then stop-to-destination, and
combine; without a stop, query the direct route.  A none at any step
means this variant failed. -/
def attempt_leg (query : Coordinate → Coordinate → String → Option RouteData)
    (destination : Coordinate) (stop : Option Coordinate) (transportation_mode : String)
    (origin_variant : Coordinate) : Option RouteData :=
  match stop with
  | some s =>
    match query origin_variant s transportation_mode with
    | none => none
    | some route1 =>
      match query s destination transportation_mode with
      | none => none
      | some route2 => combine_routes route1 route2 s
  | none => query origin_variant destination transportation_mode

/-- The origin-variant loop of get_walking_route (route_simulator.py
lines 60-86): try each variant in order, continue on any failure, return
the first success, none when all variants fail. -/
def get_walking_route_loop (query : Coordinate → Coordinate → String → Option RouteData)
    (destination : Coordinate) (stop : Option Coordinate) (transportation_mode : String) :
    List Coordinate → Option RouteData
  | [] => none
  | origin_variant :: rest =>
    match stop with
    | some s =>
      match query origin_variant s transportation_mode with
      | none => get_walking_route_loop query destination stop transportation_mode rest
      | some route1 =>
        match query s destination transportation_mode with
        | none => get_walking_route_loop query destination stop transportation_mode rest
        | some route2 =>
          match combine_routes route1 route2 s with
          | some result => some result
          | none => get_walking_route_loop query destination stop transportation_mode rest
    | none =>
      match query origin_variant destination transportation_mode with
      | some result => some result
      | none => get_walking_route_loop query destination stop transportation_mode rest

/-- get_walking_route (route_simulator.py lines 46-86): generate three
origin variants (the original first) and run the variant loop.  The
per-pair query issued by the simulator is the query oracle parameter. -/
def get_walking_route (query : Coordinate → Coordinate → String → Option RouteData)
    (rand : ℕ → ℚ × ℚ) (origin destination : Coordinate) (intermediate_stop : Option Coordinate)
    (transportation_mode : String) : Option RouteData :=
  get_walking_route_loop query destination intermediate_stop transportation_mode
    (OTPRouteSimulator.generate_location_variations origin 3 rand)

/-- A parsed survey record as passed to generate_route_path: latitude,
longitude (lng key) and an optional comment defaulting to empty. -/
structure RawPlace where
  lat : ℚ
  lng : ℚ
  comment : String := ""
deriving DecidableEq

/-- The route decoding step of generate_route_path: read
plan.itineraries[0].legs[0].legGeometry.points and convert each (lat,
lon) point to (lng, lat) order; any missing field fails this variant. -/
def extract_path (route_data : RouteData) : Option (List RoutePoint) := do
  let p ← route_data.plan
  let its ← p.itineraries
  let it ← its[0]?
  let legs ← it.legs
  let leg ← legs[0]?
  let g ← leg.legGeometry
  let pts ← g.points
  return pts.map (fun pt => (pt.2, pt.1))

/-- The inner loop of generate_route_path over destination variants for a
fixed origin variant: a failed query or a failed decode continues to the
next destination variant. -/
def route_path_inner (gwr : Coordinate → Coordinate → Option Coordinate → String → Option RouteData)
    (stop : Option Coordinate) (transport_mode : String) (origin_var : Coordinate) :
    List Coordinate → Option (List RoutePoint)
  | [] => none
  | dest_var :: rest =>
    match gwr origin_var dest_var stop transport_mode with
    | some route_data =>
      match extract_path route_data with
      | some pts => some pts
      | none => route_path_inner gwr stop transport_mode origin_var rest
    | none => route_path_inner gwr stop transport_mode origin_var rest

/-- The outer loop of generate_route_path over origin variants. -/
def route_path_outer (gwr : Coordinate → Coordinate → Option Coordinate → String → Option RouteData)
    (stop : Option Coordinate) (transport_mode : String) (dest_vars : List Coordinate) :
    List Coordinate → Option (List RoutePoint)
  | [] => none
  | origin_var :: rest =>
    match route_path_inner gwr stop transport_mode origin_var dest_vars with
    | some pts => some pts
    | none => route_path_outer gwr stop transport_mode dest_vars rest

/-- generate_route_path (route_simulator.py lines 233-291): build
validated coordinates from the parsed records (a failed bound assertion
aborts the record), pick the first POI as the intermediate stop when one
exists, generate five origin and three destination variants, and run the
nested variant loops; the simulator's get_walking_route is the gwr
oracle parameter. -/
def generate_route_path (gwr : Coordinate → Coordinate → Option Coordinate → String → Option RouteData)
    (randO randD : ℕ → ℚ × ℚ) (residence destination : RawPlace) (pois : List RawPlace)
    (transport_mode : String) : Except ValidationError (Option (List RoutePoint)) :=
  match mkCoordinate residence.lat residence.lng residence.comment with
  | Except.error e => Except.error e
  | Except.ok residence_coord =>
    match mkCoordinate destination.lat destination.lng destination.comment with
    | Except.error e => Except.error e
    | Except.ok destination_coord =>
      match pois.mapM (fun poi => mkCoordinate poi.lat poi.lng poi.comment) with
      | Except.error e => Except.error e
      | Except.ok poi_coords =>
        let intermediate_stop := poi_coords.head?
        let origin_variations :=
          RouteGenerator.generate_location_variations residence_coord 5 randO
        let dest_variations :=
          RouteGenerator.generate_location_variations destination_coord 3 randD
        Except.ok
          (route_path_outer gwr intermediate_stop transport_mode dest_variations
            origin_variations)

/-- One iteration of the candidate loop in find_optimal_poi_stop
(viz_poi_map.py lines 468-494), carried out on the state holding the best
candidate so far and its added time (none standing for the initial
infinity): a failed via-route query, a body without the
intermediate-stop marker, a missing duration or distance field, or an
added distance strictly over 2000 meters leaves the state unchanged; a
surviving candidate replaces the best exactly when its added time is
strictly below the minimum so far. -/
def poi_fold_step (gwr : Coordinate → Coordinate → Option Coordinate → String → Option RouteData)
    (origin destination : Coordinate) (transportation_mode : String) (direct : ℚ × ℚ)
    (st : Option Coordinate × Option ℚ) (poi : Coordinate) : Option Coordinate × Option ℚ :=
  match gwr origin destination (some poi) transportation_mode with
  | none => st
  | some poi_route =>
    if poi_route.intermediate_stop.isSome then
      match extractDurationDistance poi_route with
      | none => st
      | some pd =>
        if pd.2 - direct.2 > 2000 then st
        else
          match st.2 with
          | none => (some poi, some (pd.1 - direct.1))
          | some min_added_time =>
            if pd.1 - direct.1 < min_added_time then (some poi, some (pd.1 - direct.1))
            else st
    else st

/-- find_optimal_poi_stop (viz_poi_map.py lines 450-497): none on an
empty candidate list, on a failed direct-route query, or on a direct
route missing its duration or distance; otherwise the candidate loop run
from the empty best state.  The simulator's get_walking_route is the gwr
oracle parameter. -/
def find_optimal_poi_stop (gwr : Coordinate → Coordinate → Option Coordinate → String → Option RouteData)
    (origin destination : Coordinate) (poi_list : List Coordinate)
    (transportation_mode : String) : Option Coordinate :=
  if poi_list.isEmpty then none
  else
    match gwr origin destination none transportation_mode with
    | none => none
    | some direct_route =>
      match extractDurationDistance direct_route with
      | none => none
      | some direct =>
        (poi_list.foldl (poi_fold_step gwr origin destination transportation_mode direct)
          (none, none)).1

/-- The via-route outcome for one candidate, as the spec reads it: the
added time and the added distance relative to the direct route, or none
when the candidate has no usable composite route. -/
def poi_added_data (gwr : Coordinate → Coordinate → Option Coordinate → String → Option RouteData)
    (origin destination : Coordinate) (transportation_mode : String) (direct : ℚ × ℚ)
    (poi : Coordinate) : Option (ℚ × ℚ) :=
  match gwr origin destination (some poi) transportation_mode with
  | none => none
  | some poi_route =>
    if poi_route.intermediate_stop.isSome then
      match extractDurationDistance poi_route with
      | none => none
      | some pd => some (pd.1 - direct.1, pd.2 - direct.2)
    else none

/-- The candidates that survive the 2000 meter distance budget, in list
order, each with its added time. -/
def surviving_candidates (gwr : Coordinate → Coordinate → Option Coordinate → String → Option RouteData)
    (origin destination : Coordinate) (transportation_mode : String) (direct : ℚ × ℚ)
    (poi_list : List Coordinate) : List (Coordinate × ℚ) :=
  poi_list.filterMap fun poi =>
    match poi_added_data gwr origin destination transportation_mode direct poi with
    | none => none
    | some a => if a.2 ≤ 2000 then some (poi, a.1) else none

/-- One comparison of the first-encountered minimisation by added time: a
later candidate wins only with a strictly smaller added time. -/
def min_added_step (best : Option (Coordinate × ℚ)) (p : Coordinate × ℚ) :
    Option (Coordinate × ℚ) :=
  match best with
  | none => some p
  | some b => if p.2 < b.2 then some p else some b

/-- First-encountered minimisation by added time over a candidate list. -/
def first_min_by_added (l : List (Coordinate × ℚ)) : Option (Coordinate × ℚ) :=
  l.foldl min_added_step none

/-- Concrete candidates for the optimal-stop example. -/
def poiEx1 : Coordinate := { lat := 31.25, lon := 34.79, comment := "cafe" }

/-- Second concrete candidate. -/
def poiEx2 : Coordinate := { lat := 31.26, lon := 34.81, comment := "shop" }

/-- Third concrete candidate. -/
def poiEx3 : Coordinate := { lat := 31.27, lon := 34.82, comment := "park" }

/-- Concrete origin for the optimal-stop example. -/
def originEx : Coordinate := { lat := 31.264, lon := 34.80, comment := "home" }

/-- Concrete destination for the optimal-stop example. -/
def destEx : Coordinate := { lat := 31.262, lon := 34.80, comment := "uni" }

/-- The routing oracle of the optimal-stop example: a 1000 m direct route
taking 600 s, and composite routes of 1500 m (900 s), 3500 m (1000 s) and
2000 m (800 s) through the three candidates, so the added times are
300 s, 400 s and 200 s and the added distances 500 m, 2500 m and
1000 m. -/
def gwrOptimalEx : Coordinate → Coordinate → Option Coordinate → String → Option RouteData :=
  fun _ _ stop _ =>
    match stop with
    | none => some (mkLegRoute [] 600 1000 none)
    | some p =>
      if p = poiEx1 then
        some (mkLegRoute [] 900 1500 (some { lat := p.lat, lon := p.lon, comment := p.comment }))
      else if p = poiEx2 then
        some (mkLegRoute [] 1000 3500 (some { lat := p.lat, lon := p.lon, comment := p.comment }))
      else
        some (mkLegRoute [] 800 2000 (some { lat := p.lat, lon := p.lon, comment := p.comment }))

/-- C9: the haversine distance is non-negative, zero from a point to
itself, and symmetric. -/
theorem distance_to_nonneg_refl_symm (a b : Coordinate) :
    0 ≤ a.distance_to b ∧ a.distance_to a = 0 ∧ a.distance_to b = b.distance_to a := by
  refine ⟨?_, ?_, ?_⟩
  · have h := Real.arcsin_nonneg.2 (Real.sqrt_nonneg (hav a b))
    unfold Coordinate.distance_to
    nlinarith [h]
  · unfold Coordinate.distance_to hav
    simp
  · unfold Coordinate.distance_to
    have hh : hav a b = hav b a := by
      unfold hav
      have e1 : (radians b.lat - radians a.lat) / 2 = -((radians a.lat - radians b.lat) / 2) := by
        ring
      have e2 : (radians b.lon - radians a.lon) / 2 = -((radians a.lon - radians b.lon) / 2) := by
        ring
      rw [e1, e2, Real.sin_neg, Real.sin_neg]
      ring
    rw [hh]

/-- C7: Coordinate construction succeeds exactly on in-bounds latitude and
longitude pairs and fails with a validation error otherwise. -/
theorem mkCoordinate_ok_iff_inBounds (lat lon : ℚ) (comment : String) :
    (Coordinate.inBounds lat lon →
      mkCoordinate lat lon comment = Except.ok { lat := lat, lon := lon, comment := comment }) ∧
    (¬ Coordinate.inBounds lat lon →
      ∃ e : ValidationError, mkCoordinate lat lon comment = Except.error e) := by
  constructor
  · intro h
    obtain ⟨h1, h2⟩ := h
    unfold mkCoordinate
    rw [if_pos h1, if_pos h2]
  · intro h
    unfold mkCoordinate
    by_cases h1 : 29.5 ≤ lat ∧ lat ≤ 33.3
    · have h2 : ¬(34.2 ≤ lon ∧ lon ≤ 35.9) := fun h2 => h ⟨h1, h2⟩
      rw [if_pos h1, if_neg h2]
      exact ⟨_, rfl⟩
    · rw [if_neg h1]
      exact ⟨_, rfl⟩

/-- Witness for C7 at a concrete in-bounds input. -/
theorem mkCoordinate_ok_iff_inBounds_witness :
    Coordinate.inBounds 31.262 34.8 ∧
      mkCoordinate 31.262 34.8 "" = Except.ok { lat := 31.262, lon := 34.8, comment := "" } := by
  have h : Coordinate.inBounds 31.262 34.8 := by
    constructor <;> constructor <;> norm_num
  exact ⟨h, (mkCoordinate_ok_iff_inBounds 31.262 34.8 "").1 h⟩

/-- C2: combining two well-formed leg results concatenates the point
sequences with the second leg's first point dropped, sums durations and
distances, records the intermediate stop, and returns none when either
leg is missing an expected nested field; composing legs with points
(0,0),(1,1) and (1,1),(2,2) yields (0,0),(1,1),(2,2) with summed
duration and distance. -/
theorem combine_routes_spec :
    (∀ (r1 r2 : RouteData) (inter : Coordinate) (pts1 pts2 : List RoutePoint) (d1 s1 d2 s2 : ℚ),
      extractLegData r1 = some (pts1, d1, s1) →
      extractLegData r2 = some (pts2, d2, s2) →
      ∃ r : RouteData, combine_routes r1 r2 inter = some r ∧
        extractLegData r = some (pts1 ++ pts2.drop 1, d1 + d2, s1 + s2) ∧
        r.intermediate_stop =
          some { lat := inter.lat, lon := inter.lon, comment := inter.comment }) ∧
    (∀ (r1 r2 : RouteData) (inter : Coordinate),
      extractLegData r1 = none ∨ extractLegData r2 = none →
      combine_routes r1 r2 inter = none) ∧
    combine_routes (mkLegRoute [(0, 0), (1, 1)] 10 100 none)
        (mkLegRoute [(1, 1), (2, 2)] 20 200 none)
        { lat := 31.26, lon := 34.8, comment := "stop" } =
      some (mkLegRoute [(0, 0), (1, 1), (2, 2)] 30 300
        (some { lat := 31.26, lon := 34.8, comment := "stop" })) := by
  refine ⟨?_, ?_, ?_⟩
  · intro r1 r2 inter pts1 pts2 d1 s1 d2 s2 h1 h2
    unfold combine_routes
    rw [h1, h2]
    exact ⟨_, rfl, rfl, rfl⟩
  · intro r1 r2 inter h
    unfold combine_routes
    rcases h with h | h <;> rw [h]
    rcases h1 : extractLegData r1 with _ | ⟨p, d, s⟩ <;> rfl
  · norm_num [combine_routes, extractLegData, mkLegRoute]

/-- Witness for C2: both extraction hypotheses hold at concrete
well-formed legs. -/
theorem combine_routes_spec_witness :
    ∃ r : RouteData,
      combine_routes (mkLegRoute [(0, 0), (1, 1)] 10 100 none)
          (mkLegRoute [(3, 3), (4, 4)] 20 200 none)
          { lat := 31.26, lon := 34.8, comment := "" } = some r ∧
        extractLegData r = some ([(0, 0), (1, 1)] ++ [((3 : ℚ), (3 : ℚ)), (4, 4)].drop 1,
          10 + 20, 100 + 200) ∧
        r.intermediate_stop = some { lat := 31.26, lon := 34.8, comment := "" } :=
  combine_routes_spec.1 (mkLegRoute [(0, 0), (1, 1)] 10 100 none)
    (mkLegRoute [(3, 3), (4, 4)] 20 200 none)
    { lat := 31.26, lon := 34.8, comment := "" }
    [(0, 0), (1, 1)] [(3, 3), (4, 4)] 10 100 20 200 rfl rfl

/-- Helper: shifting the attempt index through the trace formula. -/
theorem filterMapTraceShift (resp : ℕ → OTPResponse) (retry_delay : ℚ)
    (max_retries attempt fuel : ℕ) :
    (List.range fuel).filterMap ((fun j =>
        if (resp (attempt + j)).is429 || decide (attempt + j < max_retries - 1) then
          some ((((attempt + j : ℕ) : ℚ) + 1) * retry_delay)
        else none) ∘ Nat.succ) =
      (List.range fuel).filterMap (fun j =>
        if (resp (attempt + 1 + j)).is429 || decide (attempt + 1 + j < max_retries - 1) then
          some ((((attempt + 1 + j : ℕ) : ℚ) + 1) * retry_delay)
        else none) := by
  apply List.filterMap_congr
  intro j hj
  simp only [Function.comp_apply, Nat.succ_eq_add_one]
  have e : attempt + (j + 1) = attempt + 1 + j := by omega
  rw [e]

/-- Helper: a run in which every attempted response fails exhausts its
fuel, returns none, and produces exactly the predicted backoff trace. -/
theorem query_aux_failure_trace (resp : ℕ → OTPResponse) (retry_delay : ℚ) (max_retries : ℕ)
    (hfail : ∀ i, i < max_retries → (resp i).isFailure = true) :
    ∀ fuel attempt, attempt + fuel = max_retries →
      query_otp_route_base_aux resp retry_delay max_retries attempt fuel =
        (none,
         (List.range fuel).filterMap (fun j =>
           if (resp (attempt + j)).is429 || decide (attempt + j < max_retries - 1) then
             some ((((attempt + j : ℕ) : ℚ) + 1) * retry_delay)
           else none),
         fuel) := by
  intro fuel
  induction fuel with
  | zero =>
    intro attempt h
    simp [query_otp_route_base_aux]
  | succ fuel ih =>
    intro attempt h
    have ha : attempt < max_retries := by omega
    have hfa := hfail attempt ha
    rw [List.range_succ_eq_map, List.filterMap_cons, List.filterMap_map, filterMapTraceShift]
    rcases hresp : resp attempt with ⟨s, data⟩ | _
    · rw [hresp] at hfa
      by_cases hs200 : s = 200
      · subst hs200
        simp [OTPResponse.isFailure] at hfa
      · by_cases hs429 : s = 429
        · subst hs429
          simp only [query_otp_route_base_aux, hresp, if_neg hs200, if_pos rfl]
          rw [ih (attempt + 1) (by omega)]
          simp [hresp, OTPResponse.is429]
        · simp only [query_otp_route_base_aux, hresp, if_neg hs200, if_neg hs429]
          rw [ih (attempt + 1) (by omega)]
          by_cases hlast : attempt < max_retries - 1
          · rw [if_pos hlast]
            simp [hresp, OTPResponse.is429, hs429, hlast]
          · rw [if_neg hlast]
            simp [hresp, OTPResponse.is429, hs429, hlast]
    · simp only [query_otp_route_base_aux, hresp]
      rw [ih (attempt + 1) (by omega)]
      by_cases hlast : attempt < max_retries - 1
      · rw [if_pos hlast]
        simp [hresp, OTPResponse.is429, hlast]
      · rw [if_neg hlast]
        simp [hresp, OTPResponse.is429, hlast]

/-- C3 (amended): when every response up to max retries is a failure
(429, another non-200 status, or a network exception) the query makes
exactly max retries attempts and returns none, sleeping (i+1)*delay after
failed attempt i except that a non-429 failure skips the sleep on the
final attempt; and a server that is rate limited exactly twice then
answers 200 with an itinerary succeeds on the third attempt after two
backoff sleeps. -/
theorem query_base_retry_exhaustion :
    (∀ (resp : ℕ → OTPResponse) (retry_delay : ℚ) (max_retries : ℕ),
      (∀ i, i < max_retries → (resp i).isFailure = true) →
      query_otp_route_base resp retry_delay max_retries =
        (none, failureSleepTrace resp retry_delay max_retries, max_retries)) ∧
    query_otp_route_base resp429Twice 0.1 5 =
      (some (mkLegRoute [] 60 400 none), [(0.1 : ℚ), 0.2], 3) := by
  constructor
  · intro resp retry_delay max_retries hfail
    unfold query_otp_route_base failureSleepTrace
    rw [query_aux_failure_trace resp retry_delay max_retries hfail max_retries 0 (by omega)]
    simp
  · norm_num [query_otp_route_base, query_otp_route_base_aux, resp429Twice,
      hasItineraries, mkLegRoute, emptyRouteData, OTPResponse.is429]

/-- Witness for C3: two attempts against a server that always raises a
network error. -/
theorem query_base_retry_exhaustion_witness :
    query_otp_route_base (fun _ => OTPResponse.netError) 0.1 2 =
      (none, failureSleepTrace (fun _ => OTPResponse.netError) 0.1 2, 2) :=
  query_base_retry_exhaustion.1 (fun _ => OTPResponse.netError) 0.1 2 (fun _ _ => rfl)

/-- Counterexample to C3 as stated: a server that always answers 200 with
an empty body never yields a 200 with a non-empty itinerary list, yet the
query consumes one attempt, not max retries = 5 attempts. -/
theorem query_base_retry_exhaustion_counterexample :
    OTPResponse.is200Empty (OTPResponse.http 200 emptyRouteData) = true ∧
    query_otp_route_base (fun _ => OTPResponse.http 200 emptyRouteData) 0.1 5 =
      (none, [], 1) ∧ (1 : ℕ) ≠ 5 := by
  refine ⟨rfl, ?_, by norm_num⟩
  norm_num [query_otp_route_base, query_otp_route_base_aux, hasItineraries, emptyRouteData]

/-- Helper: shifting the attempt index through the no-route sleep trace. -/
theorem mapTraceShift (retry_delay : ℚ) (attempt i : ℕ) :
    (List.range i).map ((fun j => (((attempt + j : ℕ) : ℚ) + 1) * retry_delay) ∘ Nat.succ) =
      (List.range i).map (fun j => (((attempt + 1 + j : ℕ) : ℚ) + 1) * retry_delay) := by
  apply List.map_congr_left
  intro j hj
  simp only [Function.comp_apply, Nat.succ_eq_add_one]
  have e : attempt + (j + 1) = attempt + 1 + j := by omega
  rw [e]

/-- Helper: a 200 response with an empty body at relative position i,
preceded by failures only, stops the loop at that attempt. -/
theorem query_aux_no_route (resp : ℕ → OTPResponse) (retry_delay : ℚ) (max_retries : ℕ) :
    ∀ i attempt fuel, attempt + fuel = max_retries → i < fuel →
      (∀ j, attempt ≤ j → j < attempt + i → (resp j).isFailure = true) →
      (resp (attempt + i)).is200Empty = true →
      query_otp_route_base_aux resp retry_delay max_retries attempt fuel =
        (none, (List.range i).map (fun j => (((attempt + j : ℕ) : ℚ) + 1) * retry_delay),
         i + 1) := by
  intro i
  induction i with
  | zero =>
    intro attempt fuel hsum hlt hprev hempty
    obtain ⟨f, rfl⟩ : ∃ f, fuel = f + 1 := ⟨fuel - 1, by omega⟩
    rw [Nat.add_zero] at hempty
    rcases hresp : resp attempt with ⟨s, data⟩ | _
    · rw [hresp] at hempty
      have hs : s = 200 := by
        by_contra hs
        simp [OTPResponse.is200Empty, hs] at hempty
      subst hs
      have hni : hasItineraries data = false := by
        simpa [OTPResponse.is200Empty] using hempty
      simp [query_otp_route_base_aux, hresp, hni]
    · rw [hresp] at hempty
      simp [OTPResponse.is200Empty] at hempty
  | succ i ih =>
    intro attempt fuel hsum hlt hprev hempty
    obtain ⟨f, rfl⟩ : ∃ f, fuel = f + 1 := ⟨fuel - 1, by omega⟩
    have hfa : (resp attempt).isFailure = true := hprev attempt le_rfl (by omega)
    have hrec := ih (attempt + 1) f (by omega) (by omega)
      (fun j hj1 hj2 => hprev j (by omega) (by omega))
      (by rw [show attempt + 1 + i = attempt + (i + 1) from by omega]; exact hempty)
    have hlast : attempt < max_retries - 1 := by omega
    rw [List.range_succ_eq_map, List.map_cons, List.map_map, mapTraceShift]
    rcases hresp : resp attempt with ⟨s, data⟩ | _
    · rw [hresp] at hfa
      by_cases hs200 : s = 200
      · subst hs200
        simp [OTPResponse.isFailure] at hfa
      · by_cases hs429 : s = 429
        · subst hs429
          simp only [query_otp_route_base_aux, hresp, if_neg hs200, if_pos rfl]
          rw [hrec]
          simp
        · simp only [query_otp_route_base_aux, hresp, if_neg hs200, if_neg hs429]
          rw [hrec, if_pos hlast]
          simp
    · simp only [query_otp_route_base_aux, hresp]
      rw [hrec, if_pos hlast]
      simp

/-- C4: when the first HTTP 200 response carries zero itineraries or no
plan, and every earlier response was a failure, the query returns none on
that attempt with no further attempts and no backoff sleep beyond those
of the earlier failed attempts. -/
theorem query_base_no_route_immediate (resp : ℕ → OTPResponse) (retry_delay : ℚ)
    (max_retries i : ℕ) (hi : i < max_retries)
    (hprev : ∀ j, j < i → (resp j).isFailure = true)
    (hempty : (resp i).is200Empty = true) :
    query_otp_route_base resp retry_delay max_retries =
      (none, (List.range i).map (fun (j : ℕ) => ((j : ℚ) + 1) * retry_delay), i + 1) := by
  unfold query_otp_route_base
  have h := query_aux_no_route resp retry_delay max_retries i 0 max_retries (by omega) hi
    (fun j hj1 hj2 => hprev j (by omega)) (by simpa using hempty)
  rw [h]
  simp only [Nat.zero_add]

/-- Witness for C4: a 500 then a 200 with an empty plan stops after the
second attempt with one backoff sleep. -/
theorem query_base_no_route_immediate_witness :
    query_otp_route_base resp500Then200Empty 0.1 5 =
      (none, (List.range 1).map (fun (j : ℕ) => ((j : ℚ) + 1) * (0.1 : ℚ)), 2) :=
  query_base_no_route_immediate resp500Then200Empty 0.1 5 1 (by omega)
    (fun j hj => by
      have hj0 : j = 0 := by omega
      subst hj0
      rfl)
    rfl

/-- Helper: folding the variation step over any index list appends only
in-bounds coordinates carrying the base coordinate's comment, at most one
per index. -/
theorem variationStep_foldl (coord : Coordinate) (rand : ℕ → ℚ × ℚ) :
    ∀ (l : List ℕ) (acc : List Coordinate),
      ∃ extra : List Coordinate,
        l.foldl (variationStep coord rand) acc = acc ++ extra ∧
        extra.length ≤ l.length ∧
        ∀ c ∈ extra, Coordinate.inBounds c.lat c.lon ∧ c.comment = coord.comment := by
  intro l
  induction l with
  | nil =>
    intro acc
    exact ⟨[], by simp, by simp, by simp⟩
  | cons k rest ih =>
    intro acc
    rw [List.foldl_cons]
    by_cases hb : 29.5 ≤ coord.lat + (rand k).1 ∧ coord.lat + (rand k).1 ≤ 33.3 ∧
        34.2 ≤ coord.lon + (rand k).2 ∧ coord.lon + (rand k).2 ≤ 35.9
    · have hstep : variationStep coord rand acc k =
          acc ++ [{ lat := coord.lat + (rand k).1, lon := coord.lon + (rand k).2, comment := coord.comment }] := by
        unfold variationStep
        rw [if_pos hb]
      rw [hstep]
      obtain ⟨extra, he, hlen, hP⟩ :=
        ih (acc ++ [{ lat := coord.lat + (rand k).1, lon := coord.lon + (rand k).2, comment := coord.comment }])
      refine ⟨{ lat := coord.lat + (rand k).1, lon := coord.lon + (rand k).2, comment := coord.comment } :: extra,
        ?_, ?_, ?_⟩
      · rw [he, List.append_assoc]
        rfl
      · simp only [List.length_cons]
        omega
      · intro c hc
        rcases List.mem_cons.1 hc with rfl | hc
        · exact ⟨⟨⟨hb.1, hb.2.1⟩, hb.2.2.1, hb.2.2.2⟩, rfl⟩
        · exact hP c hc
    · have hstep : variationStep coord rand acc k = acc := by
        unfold variationStep
        rw [if_neg hb]
      rw [hstep]
      obtain ⟨extra, he, hlen, hP⟩ := ih acc
      exact ⟨extra, he, by simp only [List.length_cons]; omega, hP⟩

/-- Helper: shape of a generated variation list: the original coordinate
followed by at most n - 1 in-bounds, comment-preserving variants. -/
theorem gen_variations_shape (coord : Coordinate) (n : ℕ) (rand : ℕ → ℚ × ℚ) :
    ∃ tail : List Coordinate,
      OTPRouteSimulator.generate_location_variations coord n rand = coord :: tail ∧
      tail.length ≤ n - 1 ∧
      ∀ c ∈ tail, Coordinate.inBounds c.lat c.lon ∧ c.comment = coord.comment := by
  obtain ⟨extra, he, hlen, hP⟩ := variationStep_foldl coord rand (List.range (n - 1)) [coord]
  refine ⟨extra, ?_, ?_, hP⟩
  · rw [OTPRouteSimulator.generate_location_variations, he]
    rfl
  · simpa using hlen

/-- C6 (amended): for every valid coordinate and every n at least 1, the
variation list has the original coordinate as element 0, between 1 and n
elements, and only elements inside the bounds. -/
theorem generate_location_variations_spec (coord : Coordinate) (n : ℕ) (rand : ℕ → ℚ × ℚ)
    (hn : 1 ≤ n) :
    (OTPRouteSimulator.generate_location_variations coord n rand).head? = some coord ∧
    1 ≤ (OTPRouteSimulator.generate_location_variations coord n rand).length ∧
    (OTPRouteSimulator.generate_location_variations coord n rand).length ≤ n ∧
    (Coordinate.inBounds coord.lat coord.lon →
      ∀ c ∈ OTPRouteSimulator.generate_location_variations coord n rand,
        Coordinate.inBounds c.lat c.lon) := by
  obtain ⟨tail, he, hlen, hP⟩ := gen_variations_shape coord n rand
  rw [he]
  refine ⟨rfl, by simp, ?_, ?_⟩
  · simp only [List.length_cons]
    omega
  · intro hc c hmem
    rcases List.mem_cons.1 hmem with rfl | hmem
    · exact hc
    · exact (hP c hmem).1

/-- Witness for C6 at n = 1. -/
theorem generate_location_variations_spec_witness :
    (OTPRouteSimulator.generate_location_variations
        { lat := 31.262, lon := 34.8, comment := "" } 1 (fun _ => (0, 0))).head? =
      some { lat := 31.262, lon := 34.8, comment := "" } :=
  (generate_location_variations_spec { lat := 31.262, lon := 34.8, comment := "" } 1
    (fun _ => (0, 0)) (by omega)).1

/-- Counterexample to C6 as stated: at n = 0 the returned list still
holds the original coordinate, so its length 1 is not between 1 and 0. -/
theorem generate_location_variations_counterexample :
    (OTPRouteSimulator.generate_location_variations
        { lat := 31.262, lon := 34.8, comment := "" } 0 (fun _ => (0, 0))).length = 1 ∧
    ¬ ((1 : ℕ) ≤ 0) :=
  ⟨rfl, by omega⟩

/-- C10: both perturbation generators keep the input coordinate's comment
unchanged on every returned element; only latitude and longitude are
perturbed. -/
theorem generate_location_variations_comment (coord : Coordinate) (n : ℕ)
    (rand : ℕ → ℚ × ℚ) :
    (∀ c ∈ OTPRouteSimulator.generate_location_variations coord n rand,
      c.comment = coord.comment) ∧
    (∀ c ∈ RouteGenerator.generate_location_variations coord n rand,
      c.comment = coord.comment) := by
  have key : ∀ c ∈ OTPRouteSimulator.generate_location_variations coord n rand,
      c.comment = coord.comment := by
    obtain ⟨tail, he, hlen, hP⟩ := gen_variations_shape coord n rand
    rw [he]
    intro c hmem
    rcases List.mem_cons.1 hmem with rfl | hmem
    · rfl
    · exact (hP c hmem).2
  have hsame : RouteGenerator.generate_location_variations coord n rand =
      OTPRouteSimulator.generate_location_variations coord n rand := rfl
  rw [hsame]
  exact ⟨key, key⟩

/-- Witness for C10 at the singleton variation list. -/
theorem generate_location_variations_comment_witness :
    Coordinate.comment { lat := 31.262, lon := 34.8, comment := "home" } =
      Coordinate.comment { lat := 31.262, lon := 34.8, comment := "home" } :=
  (generate_location_variations_comment { lat := 31.262, lon := 34.8, comment := "home" } 1
    (fun _ => (0, 0))).1 { lat := 31.262, lon := 34.8, comment := "home" }
    (by simp [OTPRouteSimulator.generate_location_variations])

/-- Helper: the origin-variant loop is the first-success search over the
variant list with the per-variant attempt body. -/
theorem get_walking_route_loop_eq (query : Coordinate → Coordinate → String → Option RouteData)
    (destination : Coordinate) (stop : Option Coordinate) (transportation_mode : String) :
    ∀ variants : List Coordinate,
      get_walking_route_loop query destination stop transportation_mode variants =
        variants.findSome? (attempt_leg query destination stop transportation_mode) := by
  intro variants
  induction variants with
  | nil => rfl
  | cons origin_variant rest ih =>
    rw [List.findSome?_cons]
    rcases stop with _ | s
    · rcases hq : query origin_variant destination transportation_mode with _ | r
      · simp only [get_walking_route_loop, attempt_leg, hq, ih]
      · simp only [get_walking_route_loop, attempt_leg, hq]
    · rcases hq1 : query origin_variant s transportation_mode with _ | r1
      · simp only [get_walking_route_loop, attempt_leg, hq1, ih]
      · rcases hq2 : query s destination transportation_mode with _ | r2
        · simp only [get_walking_route_loop, attempt_leg, hq1, hq2, ih]
        · rcases hc : combine_routes r1 r2 s with _ | r
          · simp only [get_walking_route_loop, attempt_leg, hq1, hq2, hc, ih]
          · simp only [get_walking_route_loop, attempt_leg, hq1, hq2, hc]

/-- Helper: the inner destination-variant loop is a first-success search. -/
theorem route_path_inner_eq (gwr : Coordinate → Coordinate → Option Coordinate → String → Option RouteData)
    (stop : Option Coordinate) (transport_mode : String) (origin_var : Coordinate) :
    ∀ dest_vars : List Coordinate,
      route_path_inner gwr stop transport_mode origin_var dest_vars =
        dest_vars.findSome? (fun dest_var =>
          (gwr origin_var dest_var stop transport_mode).bind extract_path) := by
  intro dest_vars
  induction dest_vars with
  | nil => rfl
  | cons dest_var rest ih =>
    rw [List.findSome?_cons]
    rcases hq : gwr origin_var dest_var stop transport_mode with _ | rd
    · simp only [route_path_inner, hq, ih, Option.bind]
    · rcases he : extract_path rd with _ | pts
      · simp only [route_path_inner, hq, he, ih, Option.bind]
      · simp only [route_path_inner, hq, he, Option.bind]

/-- Helper: the outer origin-variant loop is a first-success search. -/
theorem route_path_outer_eq (gwr : Coordinate → Coordinate → Option Coordinate → String → Option RouteData)
    (stop : Option Coordinate) (transport_mode : String) (dest_vars : List Coordinate) :
    ∀ origin_vars : List Coordinate,
      route_path_outer gwr stop transport_mode dest_vars origin_vars =
        origin_vars.findSome? (fun origin_var =>
          route_path_inner gwr stop transport_mode origin_var dest_vars) := by
  intro origin_vars
  induction origin_vars with
  | nil => rfl
  | cons origin_var rest ih =>
    rw [List.findSome?_cons]
    rcases hi : route_path_inner gwr stop transport_mode origin_var dest_vars with _ | pts
    · simp only [route_path_outer, hi, ih]
    · simp only [route_path_outer, hi]

/-- C5: get_walking_route returns the attempt result of the first origin
variant (original first) whose query, or two-leg composition when a stop
is set, succeeds, and none exactly when every variant fails; and the
top-level generate_route_path is the nested first-success search, outer
over origin variants, inner over destination variants. -/
theorem route_search_first_success :
    (∀ (query : Coordinate → Coordinate → String → Option RouteData) (rand : ℕ → ℚ × ℚ)
       (origin destination : Coordinate) (stop : Option Coordinate) (mode : String),
      get_walking_route query rand origin destination stop mode =
        (OTPRouteSimulator.generate_location_variations origin 3 rand).findSome?
          (attempt_leg query destination stop mode) ∧
      (get_walking_route query rand origin destination stop mode = none ↔
        ∀ v ∈ OTPRouteSimulator.generate_location_variations origin 3 rand,
          attempt_leg query destination stop mode v = none)) ∧
    (∀ (gwr : Coordinate → Coordinate → Option Coordinate → String → Option RouteData)
       (randO randD : ℕ → ℚ × ℚ) (residence destination : RawPlace) (pois : List RawPlace)
       (transport_mode : String) (rc dc : Coordinate) (pcs : List Coordinate),
      mkCoordinate residence.lat residence.lng residence.comment = Except.ok rc →
      mkCoordinate destination.lat destination.lng destination.comment = Except.ok dc →
      pois.mapM (fun poi => mkCoordinate poi.lat poi.lng poi.comment) = Except.ok pcs →
      generate_route_path gwr randO randD residence destination pois transport_mode =
        Except.ok ((RouteGenerator.generate_location_variations rc 5 randO).findSome?
          (fun origin_var =>
            (RouteGenerator.generate_location_variations dc 3 randD).findSome?
              (fun dest_var =>
                (gwr origin_var dest_var pcs.head? transport_mode).bind extract_path)))) := by
  constructor
  · intro query rand origin destination stop mode
    have h := get_walking_route_loop_eq query destination stop mode
      (OTPRouteSimulator.generate_location_variations origin 3 rand)
    constructor
    · exact h
    · rw [get_walking_route, h, List.findSome?_eq_none_iff]
  · intro gwr randO randD residence destination pois transport_mode rc dc pcs h1 h2 h3
    simp only [generate_route_path, h1, h2, h3]
    rw [route_path_outer_eq]
    have hinner : (fun origin_var => route_path_inner gwr pcs.head? transport_mode origin_var
          (RouteGenerator.generate_location_variations dc 3 randD)) =
        (fun origin_var => (RouteGenerator.generate_location_variations dc 3 randD).findSome?
          (fun dest_var => (gwr origin_var dest_var pcs.head? transport_mode).bind extract_path)) :=
      funext fun origin_var => route_path_inner_eq gwr pcs.head? transport_mode origin_var _
    rw [hinner]

/-- Witness for C5: concrete valid records with no POIs against an
oracle that never finds a route. -/
theorem route_search_first_success_witness :
    generate_route_path (fun _ _ _ _ => none) (fun _ => (0, 0)) (fun _ => (0, 0))
        { lat := 31.262, lng := 34.8 } { lat := 31.2615, lng := 34.801 } [] "WALK" =
      Except.ok
        ((RouteGenerator.generate_location_variations { lat := 31.262, lon := 34.8 } 5
            (fun _ => (0, 0))).findSome?
          (fun _ =>
            (RouteGenerator.generate_location_variations { lat := 31.2615, lon := 34.801 } 3
                (fun _ => (0, 0))).findSome?
              (fun _ => (none : Option RouteData).bind extract_path))) :=
  route_search_first_success.2 (fun _ _ _ _ => none) (fun _ => (0, 0)) (fun _ => (0, 0))
    { lat := 31.262, lng := 34.8 } { lat := 31.2615, lng := 34.801 } [] "WALK"
    { lat := 31.262, lon := 34.8 } { lat := 31.2615, lon := 34.801 } []
    (by norm_num [mkCoordinate]) (by norm_num [mkCoordinate]) rfl

/-- Helper: a candidate with no usable via-route leaves the loop state
unchanged. -/
theorem poi_fold_step_none (gwr : Coordinate → Coordinate → Option Coordinate → String → Option RouteData)
    (origin destination : Coordinate) (mode : String) (direct : ℚ × ℚ)
    (st : Option Coordinate × Option ℚ) (poi : Coordinate)
    (ha : poi_added_data gwr origin destination mode direct poi = none) :
    poi_fold_step gwr origin destination mode direct st poi = st := by
  unfold poi_added_data at ha
  unfold poi_fold_step
  rcases hq : gwr origin destination (some poi) mode with _ | r
  · rfl
  · rw [hq] at ha
    rcases hstop : r.intermediate_stop with _ | si
    · simp [hstop]
    · simp only [hstop, Option.isSome_some, if_true] at ha
      rcases he : extractDurationDistance r with _ | pd
      · simp [hstop, he]
      · rw [he] at ha
        simp at ha

/-- Helper: a candidate over the distance budget leaves the loop state
unchanged. -/
theorem poi_fold_step_over (gwr : Coordinate → Coordinate → Option Coordinate → String → Option RouteData)
    (origin destination : Coordinate) (mode : String) (direct : ℚ × ℚ)
    (st : Option Coordinate × Option ℚ) (poi : Coordinate) (a : ℚ × ℚ)
    (ha : poi_added_data gwr origin destination mode direct poi = some a)
    (hb : a.2 > 2000) :
    poi_fold_step gwr origin destination mode direct st poi = st := by
  unfold poi_added_data at ha
  unfold poi_fold_step
  rcases hq : gwr origin destination (some poi) mode with _ | r
  · rfl
  · rw [hq] at ha
    rcases hstop : r.intermediate_stop with _ | si
    · simp [hstop]
    · simp only [hstop, Option.isSome_some, if_true] at ha
      rcases he : extractDurationDistance r with _ | pd
      · simp [hstop, he]
      · rw [he] at ha
        simp only [Option.some.injEq] at ha
        have h2 : pd.2 - direct.2 = a.2 := by rw [← ha]
        simp [hstop, he, h2, hb]

/-- Helper: a surviving candidate updates the loop state by the
first-encountered strict minimisation on added time. -/
theorem poi_fold_step_keep (gwr : Coordinate → Coordinate → Option Coordinate → String → Option RouteData)
    (origin destination : Coordinate) (mode : String) (direct : ℚ × ℚ)
    (st : Option Coordinate × Option ℚ) (poi : Coordinate) (a : ℚ × ℚ)
    (ha : poi_added_data gwr origin destination mode direct poi = some a)
    (hb : a.2 ≤ 2000) :
    poi_fold_step gwr origin destination mode direct st poi =
      match st.2 with
      | none => (some poi, some a.1)
      | some m => if a.1 < m then (some poi, some a.1) else st := by
  unfold poi_added_data at ha
  unfold poi_fold_step
  rcases hq : gwr origin destination (some poi) mode with _ | r
  · rw [hq] at ha
    simp at ha
  · rw [hq] at ha
    rcases hstop : r.intermediate_stop with _ | si
    · simp [hstop] at ha
    · simp only [hstop, Option.isSome_some, if_true] at ha
      rcases he : extractDurationDistance r with _ | pd
      · rw [he] at ha
        simp at ha
      · rw [he] at ha
        simp only [Option.some.injEq] at ha
        have h1 : pd.1 - direct.1 = a.1 := by rw [← ha]
        have h2 : pd.2 - direct.2 = a.2 := by rw [← ha]
        simp [hstop, he, h1, h2, not_lt.2 hb]

/-- Helper: a candidate with no usable via-route adds nothing to the
surviving list. -/
theorem surviving_candidates_cons_none (gwr : Coordinate → Coordinate → Option Coordinate → String → Option RouteData)
    (origin destination : Coordinate) (mode : String) (direct : ℚ × ℚ)
    (poi : Coordinate) (rest : List Coordinate)
    (ha : poi_added_data gwr origin destination mode direct poi = none) :
    surviving_candidates gwr origin destination mode direct (poi :: rest) =
      surviving_candidates gwr origin destination mode direct rest := by
  unfold surviving_candidates
  rw [List.filterMap_cons, ha]

/-- Helper: a candidate over the budget adds nothing to the surviving
list. -/
theorem surviving_candidates_cons_over (gwr : Coordinate → Coordinate → Option Coordinate → String → Option RouteData)
    (origin destination : Coordinate) (mode : String) (direct : ℚ × ℚ)
    (poi : Coordinate) (rest : List Coordinate) (a : ℚ × ℚ)
    (ha : poi_added_data gwr origin destination mode direct poi = some a)
    (hb : ¬ a.2 ≤ 2000) :
    surviving_candidates gwr origin destination mode direct (poi :: rest) =
      surviving_candidates gwr origin destination mode direct rest := by
  unfold surviving_candidates
  rw [List.filterMap_cons, ha]
  simp [hb]

/-- Helper: a surviving candidate heads the surviving list with its added
time. -/
theorem surviving_candidates_cons_keep (gwr : Coordinate → Coordinate → Option Coordinate → String → Option RouteData)
    (origin destination : Coordinate) (mode : String) (direct : ℚ × ℚ)
    (poi : Coordinate) (rest : List Coordinate) (a : ℚ × ℚ)
    (ha : poi_added_data gwr origin destination mode direct poi = some a)
    (hb : a.2 ≤ 2000) :
    surviving_candidates gwr origin destination mode direct (poi :: rest) =
      (poi, a.1) :: surviving_candidates gwr origin destination mode direct rest := by
  unfold surviving_candidates
  rw [List.filterMap_cons, ha]
  simp [hb]

/-- Helper: the candidate loop computes the first-encountered minimiser
over the surviving candidates, for any starting best state. -/
theorem poi_fold_eq (gwr : Coordinate → Coordinate → Option Coordinate → String → Option RouteData)
    (origin destination : Coordinate) (mode : String) (direct : ℚ × ℚ) :
    ∀ (poi_list : List Coordinate) (b : Option (Coordinate × ℚ)),
      poi_list.foldl (poi_fold_step gwr origin destination mode direct)
          (b.map Prod.fst, b.map Prod.snd) =
        (((surviving_candidates gwr origin destination mode direct poi_list).foldl
            min_added_step b).map Prod.fst,
         ((surviving_candidates gwr origin destination mode direct poi_list).foldl
            min_added_step b).map Prod.snd) := by
  intro poi_list
  induction poi_list with
  | nil =>
    intro b
    simp [surviving_candidates]
  | cons poi rest ih =>
    intro b
    rcases ha : poi_added_data gwr origin destination mode direct poi with _ | a
    · rw [List.foldl_cons, poi_fold_step_none gwr origin destination mode direct _ poi ha,
        surviving_candidates_cons_none gwr origin destination mode direct poi rest ha]
      exact ih b
    · by_cases hb : a.2 ≤ 2000
      · rw [List.foldl_cons,
          poi_fold_step_keep gwr origin destination mode direct _ poi a ha hb,
          surviving_candidates_cons_keep gwr origin destination mode direct poi rest a ha hb,
          List.foldl_cons]
        have hstep : (match (Option.map Prod.fst b, Option.map Prod.snd b).2 with
            | none => (some poi, some a.1)
            | some m => if a.1 < m then (some poi, some a.1)
              else (Option.map Prod.fst b, Option.map Prod.snd b)) =
            ((min_added_step b (poi, a.1)).map Prod.fst,
             (min_added_step b (poi, a.1)).map Prod.snd) := by
          rcases b with _ | ⟨c, m⟩
          · simp [min_added_step]
          · simp only [Option.map_some, min_added_step]
            by_cases hlt : a.1 < m
            · simp [hlt]
            · simp [hlt]
        rw [hstep]
        exact ih (min_added_step b (poi, a.1))
      · rw [List.foldl_cons,
          poi_fold_step_over gwr origin destination mode direct _ poi a ha (not_le.1 hb),
          surviving_candidates_cons_over gwr origin destination mode direct poi rest a ha hb]
        exact ih b

/-- C1: find_optimal_poi_stop returns none when the direct route is
unavailable; when the direct route yields a duration and a distance, it
rejects every candidate whose via-route distance exceeds the direct
distance by strictly more than 2000 meters and returns the first
candidate minimising added time among the survivors, none when no
candidate survives; and on the concrete example, with a 1000 m direct
route and via-routes of 1500 m (added time 300 s), 3500 m (over budget)
and 2000 m (added time 200 s), it returns the third candidate. -/
theorem find_optimal_poi_stop_spec :
    (∀ (gwr : Coordinate → Coordinate → Option Coordinate → String → Option RouteData)
       (origin destination : Coordinate) (poi_list : List Coordinate) (mode : String),
      gwr origin destination none mode = none →
      find_optimal_poi_stop gwr origin destination poi_list mode = none) ∧
    (∀ (gwr : Coordinate → Coordinate → Option Coordinate → String → Option RouteData)
       (origin destination : Coordinate) (poi_list : List Coordinate) (mode : String)
       (direct_route : RouteData) (direct : ℚ × ℚ),
      gwr origin destination none mode = some direct_route →
      extractDurationDistance direct_route = some direct →
      find_optimal_poi_stop gwr origin destination poi_list mode =
        (first_min_by_added
            (surviving_candidates gwr origin destination mode direct poi_list)).map
          Prod.fst) ∧
    find_optimal_poi_stop gwrOptimalEx originEx destEx [poiEx1, poiEx2, poiEx3] "WALK" =
      some poiEx3 := by
  refine ⟨?_, ?_, ?_⟩
  · intro gwr origin destination poi_list mode h
    rcases poi_list with _ | ⟨p, rest⟩
    · rfl
    · simp [find_optimal_poi_stop, h]
  · intro gwr origin destination poi_list mode direct_route direct h1 h2
    rcases poi_list with _ | ⟨p, rest⟩
    · rfl
    · simp only [find_optimal_poi_stop, List.isEmpty_cons, Bool.false_eq_true, if_false, h1, h2]
      have hf := poi_fold_eq gwr origin destination mode direct (p :: rest) none
      simpa [first_min_by_added] using congrArg Prod.fst hf
  · norm_num [find_optimal_poi_stop, poi_fold_step, gwrOptimalEx, extractDurationDistance,
      mkLegRoute, poiEx1, poiEx2, poiEx3]

/-- Witness for C1: a routing oracle with no direct route yields none. -/
theorem find_optimal_poi_stop_spec_witness :
    find_optimal_poi_stop (fun _ _ _ _ => none) originEx destEx [poiEx1] "WALK" = none :=
  find_optimal_poi_stop_spec.1 (fun _ _ _ _ => none) originEx destEx [poiEx1] "WALK" rfl

/-- Helper: the haversine distance is monotone in the haversine value,
since square root, arcsine and the positive scaling all preserve order. -/
theorem distance_to_mono_of_hav (q b c : Coordinate) (h : hav q b ≤ hav q c) :
    q.distance_to b ≤ q.distance_to c := by
  unfold Coordinate.distance_to
  have h1 := Real.sqrt_le_sqrt h
  have h2 := Real.monotone_arcsin h1
  linarith

/-- Helper: cosine of an angle of at most 35 degrees is non-negative. -/
theorem cos_deg_nonneg (x : ℝ) (h0 : 0 ≤ x) (h1 : x ≤ 35) :
    0 ≤ Real.cos (x * Real.pi / 180) := by
  have hπl : (3.1415 : ℝ) < Real.pi := Real.pi_gt_d4
  have hπu : Real.pi < 3.1416 := Real.pi_lt_d4
  have hp : -(Real.pi / 2) < x * Real.pi / 180 := by nlinarith
  have hq : x * Real.pi / 180 < Real.pi / 2 := by nlinarith
  exact (Real.cos_pos_of_mem_Ioo ⟨hp, hq⟩).le

/-- Helper: cosine of an angle of at most 31.27 degrees is at least
0.85. -/
theorem cos_deg_ge (x : ℝ) (h0 : 0 ≤ x) (h1 : x ≤ 31.27) :
    (0.85 : ℝ) ≤ Real.cos (x * Real.pi / 180) := by
  have hπl : (3.1415 : ℝ) < Real.pi := Real.pi_gt_d4
  have hπu : Real.pi < 3.1416 := Real.pi_lt_d4
  have hb0 : (0 : ℝ) ≤ x * Real.pi / 180 := by nlinarith
  have hb : x * Real.pi / 180 ≤ 0.5458 := by nlinarith
  have hsq : (x * Real.pi / 180) ^ 2 ≤ (0.5458 : ℝ) ^ 2 := pow_le_pow_left₀ hb0 hb 2
  have hsqn : ((0.5458 : ℝ)) ^ 2 ≤ 0.2979 := by norm_num
  have hc := Real.one_sub_sq_div_two_le_cos (x := x * Real.pi / 180)
  linarith

/-- Helper: upper bound of the haversine value from the query point to
the south gate. -/
theorem hav_south_ub :
    Real.sin (0.000778 * Real.pi / 360) ^ 2 +
      Real.cos (31.262 * Real.pi / 180) * Real.cos (31.261222 * Real.pi / 180) *
        Real.sin (0.001138 * Real.pi / 360) ^ 2 ≤ 1.45e-10 := by
  have hπl : (3.1415 : ℝ) < Real.pi := Real.pi_gt_d4
  have hπu : Real.pi < 3.1416 := Real.pi_lt_d4
  have hπ0 : (0 : ℝ) < Real.pi := by linarith
  have f1 : Real.sin (0.000778 * Real.pi / 360) ^ 2 ≤ (0.000778 * Real.pi / 360) ^ 2 :=
    Real.sin_sq_le_sq
  have f2 : Real.sin (0.001138 * Real.pi / 360) ^ 2 ≤ (0.001138 * Real.pi / 360) ^ 2 :=
    Real.sin_sq_le_sq
  have h1 := Real.abs_cos_le_one (31.262 * Real.pi / 180)
  have h2 := Real.abs_cos_le_one (31.261222 * Real.pi / 180)
  have f3 : Real.cos (31.262 * Real.pi / 180) * Real.cos (31.261222 * Real.pi / 180) ≤ 1 := by
    have h3 : |Real.cos (31.262 * Real.pi / 180) * Real.cos (31.261222 * Real.pi / 180)| ≤ 1 := by
      rw [abs_mul]
      exact mul_le_one₀ h1 (abs_nonneg _) h2
    exact (le_abs_self _).trans h3
  have f4 : (0 : ℝ) ≤ Real.sin (0.001138 * Real.pi / 360) ^ 2 := sq_nonneg _
  have f5 : Real.cos (31.262 * Real.pi / 180) * Real.cos (31.261222 * Real.pi / 180) *
      Real.sin (0.001138 * Real.pi / 360) ^ 2 ≤ Real.sin (0.001138 * Real.pi / 360) ^ 2 := by
    nlinarith [f3, f4]
  have hπsq : Real.pi ^ 2 ≤ 9.8697 := by nlinarith
  have e : (0.000778 * Real.pi / 360) ^ 2 + (0.001138 * Real.pi / 360) ^ 2 =
      1.900328e-6 / 129600 * Real.pi ^ 2 := by ring
  have hub : (0.000778 * Real.pi / 360) ^ 2 + (0.001138 * Real.pi / 360) ^ 2 ≤ 1.45e-10 := by
    rw [e]
    nlinarith [hπsq]
  linarith

/-- Helper: lower bound of the squared sine of the north-gate half
latitude difference. -/
theorem sin_sq_north_lb : (2.56e-10 : ℝ) ≤ Real.sin (0.001911 * Real.pi / 360) ^ 2 := by
  have hπl : (3.1415 : ℝ) < Real.pi := Real.pi_gt_d4
  have hπu : Real.pi < 3.1416 := Real.pi_lt_d4
  have hA2l : (1.667e-5 : ℝ) ≤ 0.001911 * Real.pi / 360 := by linarith
  have hA2u : (0.001911 : ℝ) * Real.pi / 360 ≤ 1.668e-5 := by linarith
  have hA2pos : (0 : ℝ) < 0.001911 * Real.pi / 360 := by positivity
  have hle1 : (0.001911 : ℝ) * Real.pi / 360 ≤ 1 := by linarith
  have hs2 : 0.001911 * Real.pi / 360 - (0.001911 * Real.pi / 360) ^ 3 / 4 <
      Real.sin (0.001911 * Real.pi / 360) :=
    Real.sin_gt_sub_cube hA2pos hle1
  have hcube : (0.001911 * Real.pi / 360) ^ 3 ≤ (1.668e-5 : ℝ) ^ 3 :=
    pow_le_pow_left₀ hA2pos.le hA2u 3
  have hcube2 : ((1.668e-5 : ℝ)) ^ 3 ≤ 4.7e-15 := by norm_num
  have hsl : (1.6e-5 : ℝ) ≤ Real.sin (0.001911 * Real.pi / 360) := by linarith
  have h16nn : (0 : ℝ) ≤ 1.6e-5 := by norm_num
  have hmid : (2.56e-10 : ℝ) ≤ ((1.6e-5 : ℝ)) ^ 2 := by norm_num
  have h := pow_le_pow_left₀ h16nn hsl 2
  exact le_trans hmid h

/-- Helper: lower bound of the squared sine of the west-gate half
longitude difference. -/
theorem sin_sq_west_lb : (2.3e-9 : ℝ) ≤ Real.sin (0.005528 * Real.pi / 360) ^ 2 := by
  have hπl : (3.1415 : ℝ) < Real.pi := Real.pi_gt_d4
  have hπu : Real.pi < 3.1416 := Real.pi_lt_d4
  have hBl : (4.8239e-5 : ℝ) ≤ 0.005528 * Real.pi / 360 := by linarith
  have hBu : (0.005528 : ℝ) * Real.pi / 360 ≤ 4.8242e-5 := by linarith
  have hBpos : (0 : ℝ) < 0.005528 * Real.pi / 360 := by positivity
  have hle1 : (0.005528 : ℝ) * Real.pi / 360 ≤ 1 := by linarith
  have hs2 : 0.005528 * Real.pi / 360 - (0.005528 * Real.pi / 360) ^ 3 / 4 <
      Real.sin (0.005528 * Real.pi / 360) :=
    Real.sin_gt_sub_cube hBpos hle1
  have hcube : (0.005528 * Real.pi / 360) ^ 3 ≤ (4.8242e-5 : ℝ) ^ 3 :=
    pow_le_pow_left₀ hBpos.le hBu 3
  have hcube2 : ((4.8242e-5 : ℝ)) ^ 3 ≤ 1.2e-13 := by norm_num
  have hsl : (4.8e-5 : ℝ) ≤ Real.sin (0.005528 * Real.pi / 360) := by linarith
  have h48nn : (0 : ℝ) ≤ 4.8e-5 := by norm_num
  have hmid : (2.3e-9 : ℝ) ≤ ((4.8e-5 : ℝ)) ^ 2 := by norm_num
  have h := pow_le_pow_left₀ h48nn hsl 2
  exact le_trans hmid h

/-- Helper: from the query point (31.262, 34.8) the south gate has a
haversine value at most that of the north gate. -/
theorem hav_south_le_north :
    hav { lat := 31.262, lon := 34.8, comment := "" }
        { lat := 31.261222, lon := 34.801138, comment := "South Gate 3" } ≤
      hav { lat := 31.262, lon := 34.8, comment := "" }
        { lat := 31.263911, lon := 34.799290, comment := "North Gate 3" } := by
  unfold hav radians
  push_cast
  have eA1 : ((31.261222 : ℝ) * Real.pi / 180 - 31.262 * Real.pi / 180) / 2 =
      -(0.000778 * Real.pi / 360) := by ring
  have eB1 : ((34.801138 : ℝ) * Real.pi / 180 - 34.8 * Real.pi / 180) / 2 =
      0.001138 * Real.pi / 360 := by ring
  have eA2 : ((31.263911 : ℝ) * Real.pi / 180 - 31.262 * Real.pi / 180) / 2 =
      0.001911 * Real.pi / 360 := by ring
  rw [eA1, eB1, eA2, Real.sin_neg, neg_sq]
  have hcL : (0 : ℝ) ≤ Real.cos (31.262 * Real.pi / 180) := by
    have h := cos_deg_nonneg 31.262 (by norm_num) (by norm_num)
    exact h
  have hcG2 : (0 : ℝ) ≤ Real.cos (31.263911 * Real.pi / 180) := by
    have h := cos_deg_nonneg 31.263911 (by norm_num) (by norm_num)
    exact h
  have hextra : (0 : ℝ) ≤ Real.cos (31.262 * Real.pi / 180) *
      Real.cos (31.263911 * Real.pi / 180) *
      Real.sin (((34.799290 : ℝ) * Real.pi / 180 - 34.8 * Real.pi / 180) / 2) ^ 2 :=
    mul_nonneg (mul_nonneg hcL hcG2) (sq_nonneg _)
  have h1 := hav_south_ub
  have h2 := sin_sq_north_lb
  linarith

/-- Helper: from the query point (31.262, 34.8) the south gate has a
haversine value at most that of the west gate. -/
theorem hav_south_le_west :
    hav { lat := 31.262, lon := 34.8, comment := "" }
        { lat := 31.261222, lon := 34.801138, comment := "South Gate 3" } ≤
      hav { lat := 31.262, lon := 34.8, comment := "" }
        { lat := 31.262500, lon := 34.805528, comment := "West Gate" } := by
  unfold hav radians
  push_cast
  have eA1 : ((31.261222 : ℝ) * Real.pi / 180 - 31.262 * Real.pi / 180) / 2 =
      -(0.000778 * Real.pi / 360) := by ring
  have eB1 : ((34.801138 : ℝ) * Real.pi / 180 - 34.8 * Real.pi / 180) / 2 =
      0.001138 * Real.pi / 360 := by ring
  have eB3 : ((34.805528 : ℝ) * Real.pi / 180 - 34.8 * Real.pi / 180) / 2 =
      0.005528 * Real.pi / 360 := by ring
  rw [eA1, eB1, eB3, Real.sin_neg, neg_sq]
  have hsA3 : (0 : ℝ) ≤
      Real.sin (((31.262500 : ℝ) * Real.pi / 180 - 31.262 * Real.pi / 180) / 2) ^ 2 :=
    sq_nonneg _
  have h85L : (0.85 : ℝ) ≤ Real.cos (31.262 * Real.pi / 180) := by
    have h := cos_deg_ge 31.262 (by norm_num) (by norm_num)
    exact h
  have h85G3 : (0.85 : ℝ) ≤ Real.cos (31.262500 * Real.pi / 180) := by
    have h := cos_deg_ge 31.262500 (by norm_num) (by norm_num)
    exact h
  have hprod : (0.7225 : ℝ) ≤ Real.cos (31.262 * Real.pi / 180) *
      Real.cos (31.262500 * Real.pi / 180) := by nlinarith [h85L, h85G3]
  have hsb3 := sin_sq_west_lb
  have hterm : (0.7225 : ℝ) * 2.3e-9 ≤
      Real.cos (31.262 * Real.pi / 180) * Real.cos (31.262500 * Real.pi / 180) *
        Real.sin (0.005528 * Real.pi / 360) ^ 2 := by
    have hb : (0 : ℝ) ≤ Real.cos (31.262 * Real.pi / 180) *
        Real.cos (31.262500 * Real.pi / 180) := by linarith
    have hc : (0 : ℝ) ≤ (2.3e-9 : ℝ) := by norm_num
    exact mul_le_mul hprod hsb3 hc hb
  have hnum : (1.45e-10 : ℝ) ≤ 0.7225 * 2.3e-9 := by norm_num
  have h1 := hav_south_ub
  linarith

/-- C8: find_closest_gate returns the gate pair minimising the haversine
distance from the query point over the gate table, the first minimum in
iteration order winning ties; and the query point (31.262, 34.8) returns
the first gate, uni_south_3. -/
theorem find_closest_gate_spec :
    (∀ q : Coordinate, ∃ k : Fin GATES.length,
      find_closest_gate q = some (GATES.get k) ∧
      (∀ j : Fin GATES.length,
        q.distance_to (GATES.get k).2 ≤ q.distance_to (GATES.get j).2) ∧
      (∀ j : Fin GATES.length, j < k →
        q.distance_to (GATES.get k).2 < q.distance_to (GATES.get j).2)) ∧
    find_closest_gate { lat := 31.262, lon := 34.8, comment := "" } =
      some ("uni_south_3", { lat := 31.261222, lon := 34.801138, comment := "South Gate 3" }) := by
  constructor
  · intro q
    unfold find_closest_gate GATES
    simp only [List.foldl_cons, List.foldl_nil]
    by_cases h21 : q.distance_to { lat := 31.263911, lon := 34.799290, comment := "North Gate 3" } <
        q.distance_to { lat := 31.261222, lon := 34.801138, comment := "South Gate 3" }
    · by_cases h32 : q.distance_to { lat := 31.262500, lon := 34.805528, comment := "West Gate" } <
          q.distance_to { lat := 31.263911, lon := 34.799290, comment := "North Gate 3" }
      · simp only [if_pos h21, if_pos h32]
        refine ⟨⟨2, by norm_num [GATES]⟩, rfl, ?_, ?_⟩
        · intro j
          fin_cases j <;> simp [GATES] <;> linarith
        · intro j hj
          fin_cases j <;> simp [GATES] <;> first | linarith | simp at hj
      · simp only [if_pos h21, if_neg h32]
        refine ⟨⟨1, by norm_num [GATES]⟩, rfl, ?_, ?_⟩
        · intro j
          fin_cases j <;> simp [GATES] <;> linarith
        · intro j hj
          fin_cases j <;> simp [GATES] <;> first | linarith | simp at hj
    · by_cases h31 : q.distance_to { lat := 31.262500, lon := 34.805528, comment := "West Gate" } <
          q.distance_to { lat := 31.261222, lon := 34.801138, comment := "South Gate 3" }
      · simp only [if_neg h21, if_pos h31]
        refine ⟨⟨2, by norm_num [GATES]⟩, rfl, ?_, ?_⟩
        · intro j
          fin_cases j <;> simp [GATES] <;> linarith
        · intro j hj
          fin_cases j <;> simp [GATES] <;> first | linarith | simp at hj
      · simp only [if_neg h21, if_neg h31]
        refine ⟨⟨0, by norm_num [GATES]⟩, rfl, ?_, ?_⟩
        · intro j
          fin_cases j <;> simp [GATES] <;> linarith
        · intro j hj
          fin_cases j <;> simp [GATES] <;> first | linarith | simp at hj
  · have hd12 : Coordinate.distance_to { lat := 31.262, lon := 34.8, comment := "" }
        { lat := 31.261222, lon := 34.801138, comment := "South Gate 3" } ≤
        Coordinate.distance_to { lat := 31.262, lon := 34.8, comment := "" }
        { lat := 31.263911, lon := 34.799290, comment := "North Gate 3" } :=
      distance_to_mono_of_hav _ _ _ hav_south_le_north
    have hd13 : Coordinate.distance_to { lat := 31.262, lon := 34.8, comment := "" }
        { lat := 31.261222, lon := 34.801138, comment := "South Gate 3" } ≤
        Coordinate.distance_to { lat := 31.262, lon := 34.8, comment := "" }
        { lat := 31.262500, lon := 34.805528, comment := "West Gate" } :=
      distance_to_mono_of_hav _ _ _ hav_south_le_west
    unfold find_closest_gate GATES
    simp only [List.foldl_cons, List.foldl_nil]
    simp only [if_neg (not_lt.2 hd12), if_neg (not_lt.2 hd13)]
    rfl

/-- Witness for C8: the characterization instantiated at a concrete query
point. -/
theorem find_closest_gate_spec_witness :
    ∃ k : Fin GATES.length,
      find_closest_gate { lat := 31.27, lon := 34.81, comment := "" } = some (GATES.get k) ∧
      (∀ j : Fin GATES.length,
        Coordinate.distance_to { lat := 31.27, lon := 34.81, comment := "" } (GATES.get k).2 ≤
          Coordinate.distance_to { lat := 31.27, lon := 34.81, comment := "" } (GATES.get j).2) ∧
      (∀ j : Fin GATES.length, j < k →
        Coordinate.distance_to { lat := 31.27, lon := 34.81, comment := "" } (GATES.get k).2 <
          Coordinate.distance_to { lat := 31.27, lon := 34.81, comment := "" } (GATES.get j).2) :=
  find_closest_gate_spec.1 { lat := 31.27, lon := 34.81, comment := "" }
